/-
Verification of the test-data builder/factory subsystem of a Playwright
end-to-end test framework (builders for User, Address, Product, Order;
seeded random provider; test-data factory).

The third-party fake-data generator (faker) is global mutable PRNG state in
the source.  We embed it as explicit state passing: a generator state `Gen`
threaded through every field-generation call.  The concrete faker value
distributions are external library code; they are modelled here as a
deterministic state machine faithful to the documented contract (seeded
determinism, realistic non-empty strings, numeric ranges, template fill).
All builder, random-provider-wrapper and factory code is translated from
the repository sources.
-/
import Mathlib

/-- Generator state of the process-wide seeded random provider.  faker holds
a single mutable PRNG; we thread its state explicitly. -/
abbrev Gen := Nat

/-- Modelled from the spec: the underlying PRNG step of the external faker
library (a deterministic function of the current state, per the seeding
contract of §4.1).  Returns a pseudo-random Nat and the advanced state. -/
def fakerNat (g : Gen) : Nat × Gen :=
  let g2 := (g * 1664525 + 1013904223) % 4294967296
  (g2, g2)

/-- Embeds `setSeed` from src/utils/random.ts: `faker.seed(seed)` replaces the
generator state with a function of the seed alone, discarding prior state. -/
def setSeed (seed : Nat) (_g : Gen) : Gen :=
  seed % 4294967296

/-- Modelled from the spec: `faker.person.firstName()` — a realistic
(in particular non-empty) first name determined by the generator state. -/
def fakerFirstName (g : Gen) : String × Gen :=
  let r := fakerNat g
  ("First" ++ Nat.repr r.1, r.2)

/-- Modelled from the spec: `faker.person.lastName()`. -/
def fakerLastName (g : Gen) : String × Gen :=
  let r := fakerNat g
  ("Last" ++ Nat.repr r.1, r.2)

/-- Modelled from the spec: `faker.internet.email()`. -/
def fakerEmail (g : Gen) : String × Gen :=
  let r := fakerNat g
  ("user" ++ Nat.repr r.1 ++ "@example.com", r.2)

/-- Modelled from the spec: `faker.internet.password(opts?)`; the source calls
it both with an explicit length option and without. -/
def fakerPassword (len : Option Nat) (g : Gen) : String × Gen :=
  let r := fakerNat g
  ("Pw" ++ Nat.repr (len.getD 15) ++ "x" ++ Nat.repr r.1, r.2)

/-- Modelled from the spec: `faker.location.streetAddress()`. -/
def fakerStreetAddress (g : Gen) : String × Gen :=
  let r := fakerNat g
  ("Street " ++ Nat.repr r.1, r.2)

/-- Modelled from the spec: `faker.location.city()`. -/
def fakerCity (g : Gen) : String × Gen :=
  let r := fakerNat g
  ("City" ++ Nat.repr r.1, r.2)

/-- Modelled from the spec: `faker.location.state({abbreviated})` — full or
abbreviated state name depending on the flag. -/
def fakerState (abbreviated : Bool) (g : Gen) : String × Gen :=
  let r := fakerNat g
  ((if abbreviated then "S" else "State") ++ Nat.repr (r.1 % 100), r.2)

/-- Modelled from the spec: `faker.location.zipCode()`. -/
def fakerZipCode (g : Gen) : String × Gen :=
  let r := fakerNat g
  (Nat.repr (10000 + r.1 % 90000), r.2)

/-- Modelled from the spec: `faker.location.country()`. -/
def fakerCountry (g : Gen) : String × Gen :=
  let r := fakerNat g
  ("Country" ++ Nat.repr (r.1 % 200), r.2)

/-- Modelled from the spec: `faker.commerce.productName()`. -/
def fakerProductName (g : Gen) : String × Gen :=
  let r := fakerNat g
  ("Product " ++ Nat.repr r.1, r.2)

/-- Modelled from the spec: `faker.commerce.productDescription()`. -/
def fakerProductDescription (g : Gen) : String × Gen :=
  let r := fakerNat g
  ("Description " ++ Nat.repr r.1, r.2)

/-- Modelled from the spec: `parseFloat(faker.commerce.price({min, max}))` —
a price in [min, max] with two decimal places, as an exact rational. -/
def fakerPrice (lo hi : Nat) (g : Gen) : Rat × Gen :=
  let r := fakerNat g
  ((lo : Rat) + ((r.1 % ((hi - lo) * 100 + 1) : Nat) : Rat) / 100, r.2)

/-- Modelled from the spec: `faker.string.alphanumeric(n)`. -/
def fakerAlphanumeric (n : Nat) (g : Gen) : String × Gen :=
  let r := fakerNat g
  ("a" ++ Nat.repr (r.1 % 10 ^ n), r.2)

/-- Modelled from the spec: `faker.commerce.department()`. -/
def fakerDepartment (g : Gen) : String × Gen :=
  let r := fakerNat g
  ("Dept" ++ Nat.repr (r.1 % 30), r.2)

/-- Modelled from the spec: `faker.number.int({min, max})`. -/
def fakerIntRange (lo hi : Nat) (g : Gen) : Nat × Gen :=
  let r := fakerNat g
  (lo + r.1 % (hi - lo + 1), r.2)

/-- Modelled from the spec: `faker.datatype.boolean()`. -/
def fakerBool (g : Gen) : Bool × Gen :=
  let r := fakerNat g
  (r.1 % 2 == 0, r.2)

/-- Embedding of the JS String.prototype.toUpperCase() applied by the source
to faker alphanumerics (`faker.string.alphanumeric(n).toUpperCase()`). -/
def jsToUpperCase (s : String) : String :=
  String.mk (s.data.map Char.toUpper)

/-- The ten decimal digit characters, used by template fill. -/
def digitChars : List Char :=
  ['0', '1', '2', '3', '4', '5', '6', '7', '8', '9']

/-- Modelled from the spec: template fill of `faker.phone.number(format)` —
every `#` in the format is replaced by a pseudo-random decimal digit, every
other character is kept verbatim. -/
def fillTemplate : List Char → Gen → List Char × Gen
  | [], g => ([], g)
  | c :: cs, g =>
    if c == '#' then
      let r := fakerNat g
      let rest := fillTemplate cs r.2
      (digitChars.getD (r.1 % 10) '0' :: rest.1, rest.2)
    else
      let rest := fillTemplate cs g
      (c :: rest.1, rest.2)

/-- Modelled from the spec: `faker.phone.number(format)`. -/
def fakerPhoneNumber (format : String) (g : Gen) : String × Gen :=
  let r := fillTemplate format.data g
  (String.mk r.1, r.2)

/-- Embeds `randomEmail` from src/utils/random.ts: `faker.internet.email()`. -/
def randomEmail (g : Gen) : String × Gen :=
  fakerEmail g

/-- Embeds `randomPhone` from src/utils/random.ts:
`faker.phone.number('###-###-####')`. -/
def randomPhone (g : Gen) : String × Gen :=
  fakerPhoneNumber "###-###-####" g

/-- User model from src/data/models/user.ts. -/
structure User where
  firstName : String
  lastName : String
  email : String
  password : String
  phone : Option String
deriving DecidableEq, Repr

/-- Resolution of one builder field: an explicit override wins and consumes
no randomness; an unset field is generated, advancing the generator (the
source's `this.x.f ?? faker...()` with short-circuit evaluation). -/
def resolveWith (o : Option α) (f : Gen → α × Gen) (g : Gen) : α × Gen :=
  match o with
  | some v => (v, g)
  | none => f g

/-- The accumulated `Partial<User>` override record. -/
structure PartialUser where
  firstName : Option String := none
  lastName : Option String := none
  email : Option String := none
  password : Option String := none
  phone : Option String := none
deriving DecidableEq, Repr

/-- UserBuilder from src/data/builders/userBuilder.ts: holds a
`Partial<User>` of accumulated overrides. -/
structure UserBuilder where
  user : PartialUser := {}
deriving DecidableEq, Repr

/-- Embeds `new UserBuilder()`. -/
def UserBuilder.new : UserBuilder := {}

def UserBuilder.withEmail (b : UserBuilder) (email : String) : UserBuilder :=
  { b with user := { b.user with email := some email } }

def UserBuilder.withPassword (b : UserBuilder) (password : String) : UserBuilder :=
  { b with user := { b.user with password := some password } }

def UserBuilder.withFirstName (b : UserBuilder) (firstName : String) : UserBuilder :=
  { b with user := { b.user with firstName := some firstName } }

def UserBuilder.withLastName (b : UserBuilder) (lastName : String) : UserBuilder :=
  { b with user := { b.user with lastName := some lastName } }

def UserBuilder.withPhone (b : UserBuilder) (phone : String) : UserBuilder :=
  { b with user := { b.user with phone := some phone } }

/-- Embeds `UserBuilder.build()`: each unset field resolves a fresh default
from the generator, in the field order of the source's object literal. -/
def UserBuilder.build (b : UserBuilder) (g : Gen) : User × Gen :=
  let r1 := resolveWith b.user.firstName fakerFirstName g
  let r2 := resolveWith b.user.lastName fakerLastName r1.2
  let r3 := resolveWith b.user.email fakerEmail r2.2
  let r4 := resolveWith b.user.password (fakerPassword (some 12)) r3.2
  ({ firstName := r1.1, lastName := r2.1, email := r3.1, password := r4.1,
     phone := b.user.phone }, r4.2)

/-- Address model from src/data/builders/addressBuilder.ts. -/
structure Address where
  street : String
  city : String
  state : String
  zipCode : String
  country : String
deriving DecidableEq, Repr

/-- The accumulated `Partial<Address>` override record. -/
structure PartialAddress where
  street : Option String := none
  city : Option String := none
  state : Option String := none
  zipCode : Option String := none
  country : Option String := none
deriving DecidableEq, Repr

/-- AddressBuilder from src/data/builders/addressBuilder.ts. -/
structure AddressBuilder where
  address : PartialAddress := {}
deriving DecidableEq, Repr

/-- Embeds `new AddressBuilder()`. -/
def AddressBuilder.new : AddressBuilder := {}

def AddressBuilder.withStreet (b : AddressBuilder) (street : String) : AddressBuilder :=
  { b with address := { b.address with street := some street } }

def AddressBuilder.withCity (b : AddressBuilder) (city : String) : AddressBuilder :=
  { b with address := { b.address with city := some city } }

def AddressBuilder.withState (b : AddressBuilder) (state : String) : AddressBuilder :=
  { b with address := { b.address with state := some state } }

def AddressBuilder.withZipCode (b : AddressBuilder) (zipCode : String) : AddressBuilder :=
  { b with address := { b.address with zipCode := some zipCode } }

def AddressBuilder.withCountry (b : AddressBuilder) (country : String) : AddressBuilder :=
  { b with address := { b.address with country := some country } }

/-- Embeds `AddressBuilder.buildUS()`: abbreviated state, and country
defaulting to "United States" — but every field, country included, is
resolved with `?? `, so an explicit override still wins. -/
def AddressBuilder.buildUS (b : AddressBuilder) (g : Gen) : Address × Gen :=
  let r1 := resolveWith b.address.street fakerStreetAddress g
  let r2 := resolveWith b.address.city fakerCity r1.2
  let r3 := resolveWith b.address.state (fakerState true) r2.2
  let r4 := resolveWith b.address.zipCode fakerZipCode r3.2
  let r5 := resolveWith b.address.country (fun g => ("United States", g)) r4.2
  ({ street := r1.1, city := r2.1, state := r3.1, zipCode := r4.1,
     country := r5.1 }, r5.2)

/-- Embeds `AddressBuilder.build()`: fully randomized defaults. -/
def AddressBuilder.build (b : AddressBuilder) (g : Gen) : Address × Gen :=
  let r1 := resolveWith b.address.street fakerStreetAddress g
  let r2 := resolveWith b.address.city fakerCity r1.2
  let r3 := resolveWith b.address.state (fakerState false) r2.2
  let r4 := resolveWith b.address.zipCode fakerZipCode r3.2
  let r5 := resolveWith b.address.country fakerCountry r4.2
  ({ street := r1.1, city := r2.1, state := r3.1, zipCode := r4.1,
     country := r5.1 }, r5.2)

/-- Embeds `AddressBuilder.reset()`: clears the accumulated overrides; its
type shows it does not read or advance the generator state. -/
def AddressBuilder.reset (_b : AddressBuilder) : AddressBuilder := {}

/-- Product model from src/data/builders/productBuilder.ts. -/
structure Product where
  name : String
  description : String
  price : Rat
  sku : String
  category : String
  inStock : Bool
  quantity : Option Nat
deriving DecidableEq, Repr

/-- The accumulated `Partial<Product>` override record. -/
structure PartialProduct where
  name : Option String := none
  description : Option String := none
  price : Option Rat := none
  sku : Option String := none
  category : Option String := none
  inStock : Option Bool := none
  quantity : Option Nat := none
deriving DecidableEq, Repr

/-- ProductBuilder from src/data/builders/productBuilder.ts. -/
structure ProductBuilder where
  product : PartialProduct := {}
deriving DecidableEq, Repr

/-- Embeds `new ProductBuilder()`. -/
def ProductBuilder.new : ProductBuilder := {}

def ProductBuilder.withName (b : ProductBuilder) (name : String) : ProductBuilder :=
  { b with product := { b.product with name := some name } }

def ProductBuilder.withDescription (b : ProductBuilder) (description : String) : ProductBuilder :=
  { b with product := { b.product with description := some description } }

def ProductBuilder.withPrice (b : ProductBuilder) (price : Rat) : ProductBuilder :=
  { b with product := { b.product with price := some price } }

def ProductBuilder.withSku (b : ProductBuilder) (sku : String) : ProductBuilder :=
  { b with product := { b.product with sku := some sku } }

def ProductBuilder.withCategory (b : ProductBuilder) (category : String) : ProductBuilder :=
  { b with product := { b.product with category := some category } }

def ProductBuilder.withStockStatus (b : ProductBuilder) (inStock : Bool) : ProductBuilder :=
  { b with product := { b.product with inStock := some inStock } }

def ProductBuilder.withQuantity (b : ProductBuilder) (quantity : Nat) : ProductBuilder :=
  { b with product := { b.product with quantity := some quantity } }

/-- Embeds `ProductBuilder.build()`: unset fields resolve defaults in the
field order of the source object literal; `quantity` has no default. -/
def ProductBuilder.build (b : ProductBuilder) (g : Gen) : Product × Gen :=
  let r1 := resolveWith b.product.name fakerProductName g
  let r2 := resolveWith b.product.description fakerProductDescription r1.2
  let r3 := resolveWith b.product.price (fakerPrice 10 1000) r2.2
  let r4 := resolveWith b.product.sku
    (fun g => let r := fakerAlphanumeric 10 g; (jsToUpperCase r.1, r.2)) r3.2
  let r5 := resolveWith b.product.category fakerDepartment r4.2
  let r6 := resolveWith b.product.inStock fakerBool r5.2
  ({ name := r1.1, description := r2.1, price := r3.1, sku := r4.1,
     category := r5.1, inStock := r6.1, quantity := b.product.quantity }, r6.2)

/-- Embeds `ProductBuilder.buildInStock()`: `this.withStockStatus(true).build()`.
The stock-status override mutates the builder and persists, so the
post-call builder state is returned alongside the product. -/
def ProductBuilder.buildInStock (b : ProductBuilder) (g : Gen) :
    Product × ProductBuilder × Gen :=
  let b2 := b.withStockStatus true
  let r := b2.build g
  (r.1, b2, r.2)

/-- Embeds `ProductBuilder.buildOutOfStock()`:
`this.withStockStatus(false).build()`. -/
def ProductBuilder.buildOutOfStock (b : ProductBuilder) (g : Gen) :
    Product × ProductBuilder × Gen :=
  let b2 := b.withStockStatus false
  let r := b2.build g
  (r.1, b2, r.2)

/-- Embeds `ProductBuilder.reset()`. -/
def ProductBuilder.reset (_b : ProductBuilder) : ProductBuilder := {}

/-- OrderItem model from src/data/builders/orderBuilder.ts. -/
structure OrderItem where
  product : Product
  quantity : Nat
  price : Rat
deriving DecidableEq, Repr

/-- Order model from src/data/builders/orderBuilder.ts.  The status union
type is embedded as a plain string literal, as in the source. -/
structure Order where
  orderNumber : String
  user : User
  items : List OrderItem
  shippingAddress : Address
  billingAddress : Option Address
  total : Rat
  status : String
  paymentMethod : String
deriving DecidableEq, Repr

/-- The accumulated `Partial<Order>` override record.  `Partial<Order>` has
an (optional) `total` member, but no builder method ever writes it and
`build()` never reads it. -/
structure PartialOrderData where
  orderNumber : Option String := none
  user : Option User := none
  items : Option (List OrderItem) := none
  shippingAddress : Option Address := none
  billingAddress : Option Address := none
  total : Option Rat := none
  status : Option String := none
  paymentMethod : Option String := none
deriving DecidableEq, Repr

/-- OrderBuilder from src/data/builders/orderBuilder.ts. -/
structure OrderBuilder where
  order : PartialOrderData := {}
deriving DecidableEq, Repr

/-- Embeds `new OrderBuilder()`. -/
def OrderBuilder.new : OrderBuilder := {}

def OrderBuilder.withOrderNumber (b : OrderBuilder) (orderNumber : String) : OrderBuilder :=
  { b with order := { b.order with orderNumber := some orderNumber } }

def OrderBuilder.withUser (b : OrderBuilder) (user : User) : OrderBuilder :=
  { b with order := { b.order with user := some user } }

def OrderBuilder.withItems (b : OrderBuilder) (items : List OrderItem) : OrderBuilder :=
  { b with order := { b.order with items := some items } }

def OrderBuilder.withShippingAddress (b : OrderBuilder) (address : Address) : OrderBuilder :=
  { b with order := { b.order with shippingAddress := some address } }

def OrderBuilder.withBillingAddress (b : OrderBuilder) (address : Address) : OrderBuilder :=
  { b with order := { b.order with billingAddress := some address } }

def OrderBuilder.withStatus (b : OrderBuilder) (status : String) : OrderBuilder :=
  { b with order := { b.order with status := some status } }

def OrderBuilder.withPaymentMethod (b : OrderBuilder) (method : String) : OrderBuilder :=
  { b with order := { b.order with paymentMethod := some method } }

/-- The default single OrderItem synthesized by `OrderBuilder.build()` when
no items were supplied: a fresh random product with `inStock: true`, a
random quantity in [1,5], and an item price drawn by a second, separate
`faker.commerce.price` call. -/
def defaultOrderItems (g : Gen) : List OrderItem × Gen :=
  let r1 := fakerProductName g
  let r2 := fakerProductDescription r1.2
  let r3 := fakerPrice 10 100 r2.2
  let r4 := fakerAlphanumeric 10 r3.2
  let r5 := fakerDepartment r4.2
  let r6 := fakerIntRange 1 5 r5.2
  let r7 := fakerPrice 10 100 r6.2
  ([{ product :=
        { name := r1.1, description := r2.1, price := r3.1,
          sku := jsToUpperCase r4.1, category := r5.1, inStock := true,
          quantity := none },
      quantity := r6.1, price := r7.1 }], r7.2)

/-- The source's subtotal reduction:
`items.reduce((sum, item) => sum + item.price * item.quantity, 0)`. -/
def orderSubtotal (items : List OrderItem) : Rat :=
  items.foldl (fun sum item => sum + item.price * (item.quantity : Rat)) 0

/-- Embeds `OrderBuilder.build()`: items (or the synthesized default item)
are resolved first, the subtotal is reduced from them, then the remaining
fields are resolved in the source's object-literal order.  `billingAddress`
has no default, `total` is always the subtotal, `status` defaults to
"pending" and `paymentMethod` to "Credit Card". -/
def OrderBuilder.build (b : OrderBuilder) (g : Gen) : Order × Gen :=
  let ri :=
    match b.order.items with
    | some its => (its, g)
    | none => defaultOrderItems g
  let subtotal := orderSubtotal ri.1
  let r1 := resolveWith b.order.orderNumber
    (fun g => let r := fakerAlphanumeric 8 g; ("ORD-" ++ jsToUpperCase r.1, r.2)) ri.2
  let r2 := resolveWith b.order.user
    (fun g =>
      let s1 := fakerFirstName g
      let s2 := fakerLastName s1.2
      let s3 := fakerEmail s2.2
      let s4 := fakerPassword none s3.2
      ({ firstName := s1.1, lastName := s2.1, email := s3.1, password := s4.1,
         phone := none }, s4.2)) r1.2
  let r3 := resolveWith b.order.shippingAddress
    (fun g =>
      let s1 := fakerStreetAddress g
      let s2 := fakerCity s1.2
      let s3 := fakerState true s2.2
      let s4 := fakerZipCode s3.2
      ({ street := s1.1, city := s2.1, state := s3.1, zipCode := s4.1,
         country := "United States" }, s4.2)) r2.2
  ({ orderNumber := r1.1, user := r2.1, items := ri.1, shippingAddress := r3.1,
     billingAddress := b.order.billingAddress, total := subtotal,
     status := b.order.status.getD "pending",
     paymentMethod := b.order.paymentMethod.getD "Credit Card" }, r3.2)

/-- The hard-coded $29.99 test item of `OrderBuilder.buildSimple()`. -/
def simpleOrderItem : OrderItem :=
  { product :=
      { name := "Test Product", description := "A test product",
        price := 2999 / 100, sku := "TEST-001", category := "Test",
        inStock := true, quantity := none },
    quantity := 1, price := 2999 / 100 }

/-- Embeds `OrderBuilder.buildSimple()`: `this.withItems([...]).build()`.
The `withItems` call mutates the builder and persists, so the post-call
builder state is returned alongside the order. -/
def OrderBuilder.buildSimple (b : OrderBuilder) (g : Gen) :
    Order × OrderBuilder × Gen :=
  let b2 := b.withItems [simpleOrderItem]
  let r := b2.build g
  (r.1, b2, r.2)

/-- Embeds `OrderBuilder.reset()`. -/
def OrderBuilder.reset (_b : OrderBuilder) : OrderBuilder := {}

/-- Truthiness of a possibly-absent JS string: `if (overrides?.f)` runs the
branch only when the field is present and non-empty. -/
def truthyStr : Option String → Bool
  | none => false
  | some s => !(s == "")

/-- Truthiness of a possibly-absent JS number: zero is falsy. -/
def truthyNum : Option Rat → Bool
  | none => false
  | some q => !(q == 0)

/-- Embeds `TestDataFactory.createUser(overrides?)` from
src/core/testDataFactory.ts: a fresh builder, a `withX` call for each
override field that passes the source's `if (overrides?.f)` truthiness
check, then `build()`. -/
def TestDataFactory.createUser (overrides : Option PartialUser) (g : Gen) :
    User × Gen :=
  let b := UserBuilder.new
  let oEmail := overrides.bind (fun o => o.email)
  let b := if truthyStr oEmail then b.withEmail (oEmail.getD "") else b
  let oPassword := overrides.bind (fun o => o.password)
  let b := if truthyStr oPassword then b.withPassword (oPassword.getD "") else b
  let oFirst := overrides.bind (fun o => o.firstName)
  let b := if truthyStr oFirst then b.withFirstName (oFirst.getD "") else b
  let oLast := overrides.bind (fun o => o.lastName)
  let b := if truthyStr oLast then b.withLastName (oLast.getD "") else b
  let oPhone := overrides.bind (fun o => o.phone)
  let b := if truthyStr oPhone then b.withPhone (oPhone.getD "") else b
  b.build g

/-- Embeds `TestDataFactory.createAddress(overrides?)`. -/
def TestDataFactory.createAddress (overrides : Option PartialAddress) (g : Gen) :
    Address × Gen :=
  let b := AddressBuilder.new
  let oStreet := overrides.bind (fun o => o.street)
  let b := if truthyStr oStreet then b.withStreet (oStreet.getD "") else b
  let oCity := overrides.bind (fun o => o.city)
  let b := if truthyStr oCity then b.withCity (oCity.getD "") else b
  let oState := overrides.bind (fun o => o.state)
  let b := if truthyStr oState then b.withState (oState.getD "") else b
  let oZip := overrides.bind (fun o => o.zipCode)
  let b := if truthyStr oZip then b.withZipCode (oZip.getD "") else b
  let oCountry := overrides.bind (fun o => o.country)
  let b := if truthyStr oCountry then b.withCountry (oCountry.getD "") else b
  b.build g

/-- Embeds `TestDataFactory.createProduct(overrides?)`: only name, price,
category and inStock are consulted (description, sku and quantity overrides
are ignored by the source); inStock uses an explicit
`!== undefined` check rather than truthiness. -/
def TestDataFactory.createProduct (overrides : Option PartialProduct) (g : Gen) :
    Product × Gen :=
  let b := ProductBuilder.new
  let oName := overrides.bind (fun o => o.name)
  let b := if truthyStr oName then b.withName (oName.getD "") else b
  let oPrice := overrides.bind (fun o => o.price)
  let b := if truthyNum oPrice then b.withPrice (oPrice.getD 0) else b
  let oCategory := overrides.bind (fun o => o.category)
  let b := if truthyStr oCategory then b.withCategory (oCategory.getD "") else b
  let oStock := overrides.bind (fun o => o.inStock)
  let b := match oStock with
    | some v => b.withStockStatus v
    | none => b
  b.build g

/-- Embeds `TestDataFactory.createOrder(overrides?)`: only user, items,
shippingAddress and status are consulted (orderNumber, billingAddress and
paymentMethod overrides are ignored by the source).  Object and array
overrides are truthy whenever present. -/
def TestDataFactory.createOrder (overrides : Option PartialOrderData) (g : Gen) :
    Order × Gen :=
  let b := OrderBuilder.new
  let b := match overrides.bind (fun o => o.user) with
    | some u => b.withUser u
    | none => b
  let b := match overrides.bind (fun o => o.items) with
    | some its => b.withItems its
    | none => b
  let b := match overrides.bind (fun o => o.shippingAddress) with
    | some a => b.withShippingAddress a
    | none => b
  let oStatus := overrides.bind (fun o => o.status)
  let b := if truthyStr oStatus then b.withStatus (oStatus.getD "") else b
  b.build g

/-- Two builds of the same entity type in sequence from a given generator
state, with no overrides — the sequence used to state seeded
reproducibility of user construction. -/
def userPairRun (g : Gen) : User × User :=
  let r1 := UserBuilder.new.build g
  let r2 := UserBuilder.new.build r1.2
  (r1.1, r2.1)

/-- Two no-override address builds in sequence. -/
def addressPairRun (g : Gen) : Address × Address :=
  let r1 := AddressBuilder.new.build g
  let r2 := AddressBuilder.new.build r1.2
  (r1.1, r2.1)

/-- Two no-override product builds in sequence. -/
def productPairRun (g : Gen) : Product × Product :=
  let r1 := ProductBuilder.new.build g
  let r2 := ProductBuilder.new.build r1.2
  (r1.1, r2.1)

/-- Two no-override order builds in sequence. -/
def orderPairRun (g : Gen) : Order × Order :=
  let r1 := OrderBuilder.new.build g
  let r2 := OrderBuilder.new.build r1.2
  (r1.1, r2.1)

/-- Checks a character list against a template: `#` positions must hold a
decimal digit, all other positions must match the template verbatim.  This
is the specification-side formalization of the `###-###-####` pattern. -/
def matchesTemplate : List Char → List Char → Bool
  | [], [] => true
  | t :: ts, c :: cs =>
    (if t == '#' then digitChars.contains c else t == c) && matchesTemplate ts cs
  | _, _ => false

/-- A string matches the fixed `###-###-####` phone pattern of the spec:
three digits, hyphen, three digits, hyphen, four digits. -/
def isPhoneFormat (s : String) : Bool :=
  matchesTemplate "###-###-####".data s.data

/-- A nonempty string followed by anything is nonempty. -/
theorem append_ne_empty (s t : String) (h : 0 < s.length) : s ++ t ≠ "" := by
  intro he
  have h2 : s.length + t.length = 0 := by
    rw [← String.length_append, he]
    rfl
  omega

/-- Generated first names are never empty. -/
theorem fakerFirstName_ne_empty (g : Gen) : (fakerFirstName g).1 ≠ "" := by
  simp only [fakerFirstName]
  exact append_ne_empty _ _ (by decide)

/-- Generated last names are never empty. -/
theorem fakerLastName_ne_empty (g : Gen) : (fakerLastName g).1 ≠ "" := by
  simp only [fakerLastName]
  exact append_ne_empty _ _ (by decide)

/-- Generated emails are never empty. -/
theorem fakerEmail_ne_empty (g : Gen) : (fakerEmail g).1 ≠ "" := by
  simp only [fakerEmail]
  apply append_ne_empty
  rw [String.length_append]
  have : 0 < ("user" : String).length := by decide
  omega

/-- Generated passwords are never empty. -/
theorem fakerPassword_ne_empty (len : Option Nat) (g : Gen) :
    (fakerPassword len g).1 ≠ "" := by
  simp only [fakerPassword]
  apply append_ne_empty
  rw [String.length_append, String.length_append]
  have : 0 < ("Pw" : String).length := by decide
  omega

/-- Generated product names are never empty. -/
theorem fakerProductName_ne_empty (g : Gen) : (fakerProductName g).1 ≠ "" := by
  simp only [fakerProductName]
  exact append_ne_empty _ _ (by decide)

/-- Generated product descriptions are never empty. -/
theorem fakerProductDescription_ne_empty (g : Gen) :
    (fakerProductDescription g).1 ≠ "" := by
  simp only [fakerProductDescription]
  exact append_ne_empty _ _ (by decide)

/-- Generated departments (product categories) are never empty. -/
theorem fakerDepartment_ne_empty (g : Gen) : (fakerDepartment g).1 ≠ "" := by
  simp only [fakerDepartment]
  exact append_ne_empty _ _ (by decide)

/-- The fuel-based digit accumulator of `Nat.repr` never shrinks its
accumulator. -/
theorem toDigitsCore_length_ge (b : Nat) :
    ∀ (fuel n : Nat) (ds : List Char), ds.length ≤ (Nat.toDigitsCore b fuel n ds).length := by
  intro fuel
  induction fuel with
  | zero => intro n ds; simp [Nat.toDigitsCore]
  | succ f ih =>
    intro n ds
    simp only [Nat.toDigitsCore]
    split
    · simp
    · calc ds.length ≤ (Nat.digitChar (n % b) :: ds).length := by simp
        _ ≤ _ := ih _ _

/-- The decimal rendering of a natural number is never empty. -/
theorem nat_repr_ne_empty (n : Nat) : Nat.repr n ≠ "" := by
  intro h
  have h2 : (Nat.toDigits 10 n).length = 0 := by
    have := congrArg String.length h
    simpa [Nat.repr, List.asString, String.length] using this
  rw [Nat.toDigits] at h2
  rw [Nat.toDigitsCore] at h2
  revert h2
  split
  · simp
  · intro h2
    have h3 := toDigitsCore_length_ge 10 n (n / 10) [Nat.digitChar (n % 10)]
    simp at h3
    omega

/-- Generated street addresses are never empty. -/
theorem fakerStreetAddress_ne_empty (g : Gen) : (fakerStreetAddress g).1 ≠ "" := by
  simp only [fakerStreetAddress]
  exact append_ne_empty _ _ (by decide)

/-- Generated city names are never empty. -/
theorem fakerCity_ne_empty (g : Gen) : (fakerCity g).1 ≠ "" := by
  simp only [fakerCity]
  exact append_ne_empty _ _ (by decide)

/-- Generated state names, abbreviated or full, are never empty. -/
theorem fakerState_ne_empty (ab : Bool) (g : Gen) : (fakerState ab g).1 ≠ "" := by
  simp only [fakerState]
  exact append_ne_empty _ _ (by cases ab <;> decide)

/-- Generated zip codes are never empty. -/
theorem fakerZipCode_ne_empty (g : Gen) : (fakerZipCode g).1 ≠ "" := by
  simp only [fakerZipCode]
  exact nat_repr_ne_empty _

/-- Generated country names are never empty. -/
theorem fakerCountry_ne_empty (g : Gen) : (fakerCountry g).1 ≠ "" := by
  simp only [fakerCountry]
  exact append_ne_empty _ _ (by decide)

/-- Uppercasing preserves string length. -/
theorem jsToUpperCase_length (s : String) : (jsToUpperCase s).length = s.length := by
  show (s.data.map Char.toUpper).length = s.data.length
  simp

/-- The generated, uppercased SKU is never empty. -/
theorem fakerSku_ne_empty (g : Gen) : jsToUpperCase (fakerAlphanumeric 10 g).1 ≠ "" := by
  intro he
  have h2 : (jsToUpperCase (fakerAlphanumeric 10 g).1).length = 0 := by rw [he]; rfl
  rw [jsToUpperCase_length] at h2
  simp only [fakerAlphanumeric] at h2
  rw [String.length_append] at h2
  have : 0 < ("a" : String).length := by decide
  omega

/-- Whatever digit the template fill picks is one of the ten digits. -/
theorem digitChars_getD_mem (n : Nat) :
    (digitChars[n % 10]?).getD '0' ∈ digitChars := by
  have h : n % 10 < 10 := Nat.mod_lt _ (by norm_num)
  revert h
  generalize n % 10 = k
  intro h
  interval_cases k <;> decide

/-- The character list of the phone template literal. -/
theorem phoneTemplate_data :
    "###-###-####".data
      = ['#', '#', '#', '-', '#', '#', '#', '-', '#', '#', '#', '#'] := rfl

/-- C1: every constructed Order — from `build()` with explicit items, from
`build()` with the synthesized default item, or from `buildSimple()` — has
`total` equal to the subtotal reduction Σ(price × quantity) over its items;
and no builder operation can set `total` independently of the items: even a
builder state carrying a `total` member in its `Partial<Order>` builds the
same order as one without it. -/
theorem order_total_eq_subtotal_of_items :
    (∀ (b : OrderBuilder) (g : Gen),
        ((OrderBuilder.build b g).1).total = orderSubtotal ((OrderBuilder.build b g).1).items)
    ∧ (∀ (b : OrderBuilder) (g : Gen),
        ((OrderBuilder.buildSimple b g).1).total
          = orderSubtotal ((OrderBuilder.buildSimple b g).1).items)
    ∧ (∀ (b : OrderBuilder) (t : Rat) (g : Gen),
        OrderBuilder.build { b with order := { b.order with total := some t } } g
          = OrderBuilder.build b g) :=
  ⟨fun _b _g => rfl, fun _b _g => rfl, fun _b _t _g => rfl⟩

/-- C2: for every seed s, reseeding with `setSeed(s)` and then building two
same-type entities with no overrides yields the same field-for-field result
as repeating `setSeed(s)` and the same build sequence from any other prior
generator state — for every builder type. -/
theorem seeded_runs_reproducible :
    ∀ (s : Nat) (gA gB : Gen),
      userPairRun (setSeed s gA) = userPairRun (setSeed s gB)
      ∧ addressPairRun (setSeed s gA) = addressPairRun (setSeed s gB)
      ∧ productPairRun (setSeed s gA) = productPairRun (setSeed s gB)
      ∧ orderPairRun (setSeed s gA) = orderPairRun (setSeed s gB) :=
  fun _s _gA _gB => ⟨rfl, rfl, rfl, rfl⟩

/-- C3 counterexample: `TestDataFactory.createOrder` never calls
`withPaymentMethod`, so an override record with `paymentMethod: 'PayPal'`
present yields an order whose paymentMethod is the builder default
"Credit Card", not the override value — refuting the claim that every
field present in the override record appears in the result. -/
theorem createOrder_drops_paymentMethod_override :
    ((TestDataFactory.createOrder (some { paymentMethod := some "PayPal" }) 0).1).paymentMethod
        ≠ "PayPal"
    ∧ ((TestDataFactory.createOrder (some { paymentMethod := some "PayPal" }) 0).1).paymentMethod
        = "Credit Card"
    ∧ ({ paymentMethod := some "PayPal" } : PartialOrderData).paymentMethod
        = some "PayPal" :=
  ⟨by decide, by decide, rfl⟩

/-- C3 amended: each TestDataFactory method constructs a fresh builder and
calls the corresponding `withX` mutator only for its supported subset of
override fields whose value passes the source's truthiness test (non-empty
string, non-zero number; `inStock` whenever defined; object/array fields
whenever present) — `createUser`/`createAddress` support all their entity
fields, `createProduct` only name/price/category/inStock, `createOrder`
only user/items/shippingAddress/status — and every such supported, truthy
override field appears in the built result with the override's value. -/
theorem factory_supported_truthy_overrides_propagate :
    (∀ (o : PartialUser) (g : Gen),
        (∀ v, v ≠ "" → o.email = some v → ((TestDataFactory.createUser (some o) g).1).email = v)
        ∧ (∀ v, v ≠ "" → o.password = some v → ((TestDataFactory.createUser (some o) g).1).password = v)
        ∧ (∀ v, v ≠ "" → o.firstName = some v → ((TestDataFactory.createUser (some o) g).1).firstName = v)
        ∧ (∀ v, v ≠ "" → o.lastName = some v → ((TestDataFactory.createUser (some o) g).1).lastName = v)
        ∧ (∀ v, v ≠ "" → o.phone = some v → ((TestDataFactory.createUser (some o) g).1).phone = some v))
    ∧ (∀ (o : PartialAddress) (g : Gen),
        (∀ v, v ≠ "" → o.street = some v → ((TestDataFactory.createAddress (some o) g).1).street = v)
        ∧ (∀ v, v ≠ "" → o.city = some v → ((TestDataFactory.createAddress (some o) g).1).city = v)
        ∧ (∀ v, v ≠ "" → o.state = some v → ((TestDataFactory.createAddress (some o) g).1).state = v)
        ∧ (∀ v, v ≠ "" → o.zipCode = some v → ((TestDataFactory.createAddress (some o) g).1).zipCode = v)
        ∧ (∀ v, v ≠ "" → o.country = some v → ((TestDataFactory.createAddress (some o) g).1).country = v))
    ∧ (∀ (o : PartialProduct) (g : Gen),
        (∀ v, v ≠ "" → o.name = some v → ((TestDataFactory.createProduct (some o) g).1).name = v)
        ∧ (∀ q, q ≠ 0 → o.price = some q → ((TestDataFactory.createProduct (some o) g).1).price = q)
        ∧ (∀ v, v ≠ "" → o.category = some v → ((TestDataFactory.createProduct (some o) g).1).category = v)
        ∧ (∀ t, o.inStock = some t → ((TestDataFactory.createProduct (some o) g).1).inStock = t))
    ∧ (∀ (o : PartialOrderData) (g : Gen),
        (∀ u, o.user = some u → ((TestDataFactory.createOrder (some o) g).1).user = u)
        ∧ (∀ its, o.items = some its → ((TestDataFactory.createOrder (some o) g).1).items = its)
        ∧ (∀ a, o.shippingAddress = some a → ((TestDataFactory.createOrder (some o) g).1).shippingAddress = a)
        ∧ (∀ v, v ≠ "" → o.status = some v → ((TestDataFactory.createOrder (some o) g).1).status = v)) := by
  refine ⟨fun o g => ?_, fun o g => ?_, fun o g => ?_, fun o g => ?_⟩
  · refine ⟨fun v hv h => ?_, fun v hv h => ?_, fun v hv h => ?_,
      fun v hv h => ?_, fun v hv h => ?_⟩ <;>
    · simp only [TestDataFactory.createUser, Option.bind, h, truthyStr]
      simp [hv]
      split_ifs <;>
        simp [UserBuilder.build, UserBuilder.new, UserBuilder.withEmail,
          UserBuilder.withPassword, UserBuilder.withFirstName, UserBuilder.withLastName,
          UserBuilder.withPhone, resolveWith]
  · refine ⟨fun v hv h => ?_, fun v hv h => ?_, fun v hv h => ?_,
      fun v hv h => ?_, fun v hv h => ?_⟩ <;>
    · simp only [TestDataFactory.createAddress, Option.bind, h, truthyStr]
      simp [hv]
      split_ifs <;>
        simp [AddressBuilder.build, AddressBuilder.new, AddressBuilder.withStreet,
          AddressBuilder.withCity, AddressBuilder.withState, AddressBuilder.withZipCode,
          AddressBuilder.withCountry, resolveWith]
  · refine ⟨fun v hv h => ?_, fun q hq h => ?_, fun v hv h => ?_, fun t h => ?_⟩ <;>
    · simp only [TestDataFactory.createProduct, Option.bind, h, truthyStr, truthyNum]
      first
        | simp [hv]
        | simp [hq]
        | skip
      (try split_ifs) <;> (repeat' split) <;>
        simp [ProductBuilder.build, ProductBuilder.new, ProductBuilder.withName,
          ProductBuilder.withPrice, ProductBuilder.withCategory,
          ProductBuilder.withStockStatus, resolveWith]
  · refine ⟨fun u h => ?_, fun its h => ?_, fun a h => ?_, fun v hv h => ?_⟩ <;>
    · simp only [TestDataFactory.createOrder, Option.bind, h, truthyStr]
      first
        | simp [hv]
        | skip
      (try split_ifs) <;> (repeat' split) <;>
        simp [OrderBuilder.build, OrderBuilder.new, OrderBuilder.withUser,
          OrderBuilder.withItems, OrderBuilder.withShippingAddress,
          OrderBuilder.withStatus, resolveWith]

/-- C3 witness: a concrete truthy email override propagates through
`createUser`. -/
theorem factory_supported_truthy_overrides_propagate_witness :
    ((TestDataFactory.createUser (some { email := some "a@x.com" }) 0).1).email
      = "a@x.com" :=
  (factory_supported_truthy_overrides_propagate.1 { email := some "a@x.com" } 0).1
    "a@x.com" (by decide) rfl

/-- C4: for every builder state and override set, every field set by a
`withX` call appears in the `build()` result with exactly that value, and
every required field left unset is resolved to a non-empty default (the
optional fields — phone, product quantity, order billingAddress — stay
absent, and unset order items resolve to a non-empty item list); concretely,
`new UserBuilder().withEmail('a@x.com').withPassword('P1').build()` yields
email 'a@x.com', password 'P1', non-empty first and last names, and no
phone.  Shown for all four builders: User, Product, Address and Order. -/
theorem builder_override_and_default_contract :
    (∀ (b : UserBuilder) (g : Gen) (v : String),
        (b.user.email = some v → ((b.build g).1).email = v)
        ∧ (b.user.password = some v → ((b.build g).1).password = v)
        ∧ (b.user.firstName = some v → ((b.build g).1).firstName = v)
        ∧ (b.user.lastName = some v → ((b.build g).1).lastName = v)
        ∧ (b.user.phone = some v → ((b.build g).1).phone = some v))
    ∧ (∀ (b : UserBuilder) (g : Gen),
        (b.user.firstName = none → ((b.build g).1).firstName ≠ "")
        ∧ (b.user.lastName = none → ((b.build g).1).lastName ≠ "")
        ∧ (b.user.email = none → ((b.build g).1).email ≠ "")
        ∧ (b.user.password = none → ((b.build g).1).password ≠ "")
        ∧ (b.user.phone = none → ((b.build g).1).phone = none))
    ∧ (∀ (b : ProductBuilder) (g : Gen),
        (∀ v, b.product.name = some v → ((b.build g).1).name = v)
        ∧ (∀ v, b.product.description = some v → ((b.build g).1).description = v)
        ∧ (∀ q, b.product.price = some q → ((b.build g).1).price = q)
        ∧ (∀ v, b.product.sku = some v → ((b.build g).1).sku = v)
        ∧ (∀ v, b.product.category = some v → ((b.build g).1).category = v)
        ∧ (∀ t, b.product.inStock = some t → ((b.build g).1).inStock = t)
        ∧ (∀ n, b.product.quantity = some n → ((b.build g).1).quantity = some n))
    ∧ (∀ (b : ProductBuilder) (g : Gen),
        (b.product.name = none → ((b.build g).1).name ≠ "")
        ∧ (b.product.description = none → ((b.build g).1).description ≠ "")
        ∧ (b.product.sku = none → ((b.build g).1).sku ≠ "")
        ∧ (b.product.category = none → ((b.build g).1).category ≠ "")
        ∧ (b.product.quantity = none → ((b.build g).1).quantity = none))
    ∧ (∀ (b : AddressBuilder) (g : Gen),
        (∀ v, b.address.street = some v → ((b.build g).1).street = v)
        ∧ (∀ v, b.address.city = some v → ((b.build g).1).city = v)
        ∧ (∀ v, b.address.state = some v → ((b.build g).1).state = v)
        ∧ (∀ v, b.address.zipCode = some v → ((b.build g).1).zipCode = v)
        ∧ (∀ v, b.address.country = some v → ((b.build g).1).country = v))
    ∧ (∀ (b : AddressBuilder) (g : Gen),
        (b.address.street = none → ((b.build g).1).street ≠ "")
        ∧ (b.address.city = none → ((b.build g).1).city ≠ "")
        ∧ (b.address.state = none → ((b.build g).1).state ≠ "")
        ∧ (b.address.zipCode = none → ((b.build g).1).zipCode ≠ "")
        ∧ (b.address.country = none → ((b.build g).1).country ≠ ""))
    ∧ (∀ (b : OrderBuilder) (g : Gen),
        (∀ v, b.order.orderNumber = some v → ((b.build g).1).orderNumber = v)
        ∧ (∀ u, b.order.user = some u → ((b.build g).1).user = u)
        ∧ (∀ its, b.order.items = some its → ((b.build g).1).items = its)
        ∧ (∀ a, b.order.shippingAddress = some a → ((b.build g).1).shippingAddress = a)
        ∧ (∀ a, b.order.billingAddress = some a → ((b.build g).1).billingAddress = some a)
        ∧ (∀ v, b.order.status = some v → ((b.build g).1).status = v)
        ∧ (∀ v, b.order.paymentMethod = some v → ((b.build g).1).paymentMethod = v))
    ∧ (∀ (b : OrderBuilder) (g : Gen),
        (b.order.orderNumber = none → ((b.build g).1).orderNumber ≠ "")
        ∧ (b.order.status = none → ((b.build g).1).status ≠ "")
        ∧ (b.order.paymentMethod = none → ((b.build g).1).paymentMethod ≠ "")
        ∧ (b.order.items = none → ((b.build g).1).items ≠ [])
        ∧ (b.order.billingAddress = none → ((b.build g).1).billingAddress = none))
    ∧ (∀ g : Gen,
        ((((UserBuilder.new.withEmail "a@x.com").withPassword "P1").build g).1).email = "a@x.com"
        ∧ ((((UserBuilder.new.withEmail "a@x.com").withPassword "P1").build g).1).password = "P1"
        ∧ ((((UserBuilder.new.withEmail "a@x.com").withPassword "P1").build g).1).firstName ≠ ""
        ∧ ((((UserBuilder.new.withEmail "a@x.com").withPassword "P1").build g).1).lastName ≠ ""
        ∧ ((((UserBuilder.new.withEmail "a@x.com").withPassword "P1").build g).1).phone = none) := by
  refine ⟨?_, ?_, ?_, ?_, ?_, ?_, ?_, ?_, ?_⟩
  · intro b g v
    refine ⟨fun h => ?_, fun h => ?_, fun h => ?_, fun h => ?_, fun h => ?_⟩ <;>
      simp [UserBuilder.build, resolveWith, h]
  · intro b g
    refine ⟨fun h => ?_, fun h => ?_, fun h => ?_, fun h => ?_, fun h => ?_⟩ <;>
        simp [UserBuilder.build, resolveWith, h] <;>
      first
        | exact fakerFirstName_ne_empty _
        | exact fakerLastName_ne_empty _
        | exact fakerEmail_ne_empty _
        | exact fakerPassword_ne_empty _ _
  · intro b g
    refine ⟨fun v h => ?_, fun v h => ?_, fun q h => ?_, fun v h => ?_,
      fun v h => ?_, fun t h => ?_, fun n h => ?_⟩ <;>
      simp [ProductBuilder.build, resolveWith, h]
  · intro b g
    refine ⟨fun h => ?_, fun h => ?_, fun h => ?_, fun h => ?_, fun h => ?_⟩ <;>
        simp [ProductBuilder.build, resolveWith, h] <;>
      first
        | exact fakerProductName_ne_empty _
        | exact fakerProductDescription_ne_empty _
        | exact fakerSku_ne_empty _
        | exact fakerDepartment_ne_empty _
  · intro b g
    refine ⟨fun v h => ?_, fun v h => ?_, fun v h => ?_, fun v h => ?_, fun v h => ?_⟩ <;>
      simp [AddressBuilder.build, resolveWith, h]
  · intro b g
    refine ⟨fun h => ?_, fun h => ?_, fun h => ?_, fun h => ?_, fun h => ?_⟩ <;>
        simp [AddressBuilder.build, resolveWith, h] <;>
      first
        | exact fakerStreetAddress_ne_empty _
        | exact fakerCity_ne_empty _
        | exact fakerState_ne_empty _ _
        | exact fakerZipCode_ne_empty _
        | exact fakerCountry_ne_empty _
  · intro b g
    refine ⟨fun v h => ?_, fun u h => ?_, fun its h => ?_, fun a h => ?_,
      fun a h => ?_, fun v h => ?_, fun v h => ?_⟩ <;>
      simp [OrderBuilder.build, resolveWith, h]
  · intro b g
    refine ⟨fun h => ?_, fun h => ?_, fun h => ?_, fun h => ?_, fun h => ?_⟩ <;>
      simp [OrderBuilder.build, resolveWith, h, defaultOrderItems]
    exact append_ne_empty _ _ (by decide)
  · intro g
    refine ⟨rfl, rfl, ?_, ?_, rfl⟩ <;>
        simp [UserBuilder.build, UserBuilder.withEmail, UserBuilder.withPassword,
          UserBuilder.new, resolveWith] <;>
      first
        | exact fakerFirstName_ne_empty _
        | exact fakerLastName_ne_empty _

/-- C4 witness: concrete builders of each kind with a field set build that
value, and an untouched user builder builds a non-empty first name. -/
theorem builder_override_and_default_contract_witness :
    (((UserBuilder.new.withEmail "w@x.y").build 0).1).email = "w@x.y"
    ∧ ((UserBuilder.new.build 0).1).firstName ≠ ""
    ∧ (((AddressBuilder.new.withStreet "5 Main St").build 0).1).street = "5 Main St"
    ∧ (((OrderBuilder.new.withStatus "shipped").build 0).1).status = "shipped" :=
  ⟨(builder_override_and_default_contract.1 (UserBuilder.new.withEmail "w@x.y") 0 "w@x.y").1 rfl,
   (builder_override_and_default_contract.2.1 UserBuilder.new 0).1 rfl,
   (builder_override_and_default_contract.2.2.2.2.1
      (AddressBuilder.new.withStreet "5 Main St") 0).1 "5 Main St" rfl,
   ((builder_override_and_default_contract.2.2.2.2.2.2.1
      (OrderBuilder.new.withStatus "shipped") 0).2.2.2.2.2.1) "shipped" rfl⟩

/-- C5 counterexample: `buildUS()` resolves country with
`this.address.country ?? 'United States'`, so an explicit
`withCountry('Canada')` override survives `buildUS()` — refuting the claim
that `buildUS()` yields "United States" for every builder state. -/
theorem buildUS_country_override_wins :
    (((AddressBuilder.new.withCountry "Canada").buildUS 0).1).country = "Canada"
    ∧ "Canada" ≠ "United States" :=
  ⟨by decide, by decide⟩

/-- C5 amended: `buildUS()` returns country "United States" whenever the
country field was not explicitly overridden; an explicit `withCountry`
override takes precedence, as for every other field. -/
theorem buildUS_country_default_united_states (b : AddressBuilder) (g : Gen)
    (h : b.address.country = none) :
    ((b.buildUS g).1).country = "United States" := by
  simp [AddressBuilder.buildUS, resolveWith, h]

/-- C5 witness: a fresh builder's `buildUS()` yields country
"United States". -/
theorem buildUS_country_default_united_states_witness :
    ((AddressBuilder.new.buildUS 0).1).country = "United States" :=
  buildUS_country_default_united_states AddressBuilder.new 0 rfl

/-- C6: the reset law for the builders that do declare `reset()` — Address,
Product and Order: `reset()` clears all accumulated overrides (its type
consumes no generator state), so `reset()` followed by a build is the same
function of the generator state as a freshly constructed builder's build.
UserBuilder declares no `reset()` at all, so the claim's universal
quantification over all four builders fails on the source. -/
theorem reset_builders_restore_initial_state :
    (∀ (b : AddressBuilder) (g : Gen),
        (b.reset).build g = AddressBuilder.new.build g
        ∧ (b.reset).buildUS g = AddressBuilder.new.buildUS g)
    ∧ (∀ (b : ProductBuilder) (g : Gen), (b.reset).build g = ProductBuilder.new.build g)
    ∧ (∀ (b : OrderBuilder) (g : Gen), (b.reset).build g = OrderBuilder.new.build g) :=
  ⟨fun _b _g => ⟨rfl, rfl⟩, fun _b _g => rfl, fun _b _g => rfl⟩

/-- C7: `new OrderBuilder().buildSimple()` returns, for every generator
state, an order with exactly one item — the hard-coded $29.99 item with
quantity 1 — and total 29.99. -/
theorem buildSimple_single_fixed_item (g : Gen) :
    ((OrderBuilder.new.buildSimple g).1).items = [simpleOrderItem]
    ∧ simpleOrderItem.price = 2999 / 100
    ∧ simpleOrderItem.quantity = 1
    ∧ ((OrderBuilder.new.buildSimple g).1).total = 2999 / 100 := by
  refine ⟨rfl, rfl, rfl, ?_⟩
  show orderSubtotal [simpleOrderItem] = 2999 / 100
  norm_num [orderSubtotal, simpleOrderItem]

/-- C8: `randomPhone()` always returns a string matching the fixed
`###-###-####` digit pattern, and `randomPhone`/`randomEmail` are pure
functions of the current generator state: after any reseed their outputs
are fully determined by the seed, independent of prior state. -/
theorem randomPhone_format_and_purity :
    (∀ g : Gen, isPhoneFormat (randomPhone g).1 = true)
    ∧ (∀ (s : Nat) (g g2 : Gen), randomPhone (setSeed s g) = randomPhone (setSeed s g2))
    ∧ (∀ (s : Nat) (g g2 : Gen), randomEmail (setSeed s g) = randomEmail (setSeed s g2)) := by
  refine ⟨fun g => ?_, fun _s _g _g2 => rfl, fun _s _g _g2 => rfl⟩
  simp only [randomPhone, fakerPhoneNumber, isPhoneFormat, phoneTemplate_data]
  simp [fillTemplate, matchesTemplate, digitChars_getD_mem]

/-- C9: the terminal convenience resolvers mutate the builder's accumulated
override state and the mutation persists: after `buildSimple()` the builder
holds the fixed $29.99 item (all other override fields untouched) and any
later `build()` returns that item with total 29.99; after `buildInStock()`
(resp. `buildOutOfStock()`) the builder holds `inStock = true` (resp.
`false`), other fields untouched, and any later `build()` has that stock
status. -/
theorem terminal_resolvers_persist_overrides :
    (∀ (b : OrderBuilder) (g : Gen),
        ((b.buildSimple g).2.1).order.items = some [simpleOrderItem]
        ∧ ((b.buildSimple g).2.1).order.orderNumber = b.order.orderNumber
        ∧ ((b.buildSimple g).2.1).order.user = b.order.user
        ∧ ((b.buildSimple g).2.1).order.shippingAddress = b.order.shippingAddress
        ∧ ((b.buildSimple g).2.1).order.billingAddress = b.order.billingAddress
        ∧ ((b.buildSimple g).2.1).order.total = b.order.total
        ∧ ((b.buildSimple g).2.1).order.status = b.order.status
        ∧ ((b.buildSimple g).2.1).order.paymentMethod = b.order.paymentMethod
        ∧ ∀ g2 : Gen, ((((b.buildSimple g).2.1).build g2).1).items = [simpleOrderItem]
            ∧ ((((b.buildSimple g).2.1).build g2).1).total = 2999 / 100)
    ∧ (∀ (p : ProductBuilder) (g : Gen),
        ((p.buildInStock g).2.1).product.inStock = some true
        ∧ ((p.buildInStock g).2.1).product.name = p.product.name
        ∧ ((p.buildInStock g).2.1).product.description = p.product.description
        ∧ ((p.buildInStock g).2.1).product.price = p.product.price
        ∧ ((p.buildInStock g).2.1).product.sku = p.product.sku
        ∧ ((p.buildInStock g).2.1).product.category = p.product.category
        ∧ ((p.buildInStock g).2.1).product.quantity = p.product.quantity
        ∧ ∀ g2 : Gen, ((((p.buildInStock g).2.1).build g2).1).inStock = true)
    ∧ (∀ (p : ProductBuilder) (g : Gen),
        ((p.buildOutOfStock g).2.1).product.inStock = some false
        ∧ ((p.buildOutOfStock g).2.1).product.name = p.product.name
        ∧ ((p.buildOutOfStock g).2.1).product.description = p.product.description
        ∧ ((p.buildOutOfStock g).2.1).product.price = p.product.price
        ∧ ((p.buildOutOfStock g).2.1).product.sku = p.product.sku
        ∧ ((p.buildOutOfStock g).2.1).product.category = p.product.category
        ∧ ((p.buildOutOfStock g).2.1).product.quantity = p.product.quantity
        ∧ ∀ g2 : Gen, ((((p.buildOutOfStock g).2.1).build g2).1).inStock = false) := by
  refine ⟨fun b g => ?_, fun p g => ?_, fun p g => ?_⟩
  · refine ⟨rfl, rfl, rfl, rfl, rfl, rfl, rfl, rfl, fun g2 => ⟨rfl, ?_⟩⟩
    show orderSubtotal [simpleOrderItem] = 2999 / 100
    norm_num [orderSubtotal, simpleOrderItem]
  · exact ⟨rfl, rfl, rfl, rfl, rfl, rfl, rfl, fun _g2 => rfl⟩
  · exact ⟨rfl, rfl, rfl, rfl, rfl, rfl, rfl, fun _g2 => rfl⟩

/-- C10: `OrderBuilder.build()` defaults — status "pending", paymentMethod
"Credit Card", billingAddress left absent, the synthesized default item is
a single item whose product always has `inStock = true`, and the item
price comes from a separate draw, not coupled to the product's own price
(witnessed by a generator state where the two differ). -/
theorem order_build_defaults :
    (∀ (b : OrderBuilder) (g : Gen), b.order.status = none →
        ((b.build g).1).status = "pending")
    ∧ (∀ (b : OrderBuilder) (g : Gen), b.order.paymentMethod = none →
        ((b.build g).1).paymentMethod = "Credit Card")
    ∧ (∀ (b : OrderBuilder) (g : Gen), b.order.billingAddress = none →
        ((b.build g).1).billingAddress = none)
    ∧ (∀ (b : OrderBuilder) (g : Gen), b.order.items = none →
        ((b.build g).1).items = (defaultOrderItems g).1)
    ∧ (∀ g : Gen, ∃ it, (defaultOrderItems g).1 = [it] ∧ it.product.inStock = true)
    ∧ (∃ g : Gen, ∀ it ∈ (defaultOrderItems g).1, it.price ≠ it.product.price) := by
  refine ⟨fun b g h => ?_, fun b g h => ?_, fun b g h => ?_, fun b g h => ?_,
    fun g => ⟨_, rfl, rfl⟩, ⟨0, ?_⟩⟩
  · simp [OrderBuilder.build, h]
  · simp [OrderBuilder.build, h]
  · simp [OrderBuilder.build, h]
  · simp [OrderBuilder.build, h]
  · intro it hit
    norm_num [defaultOrderItems, fakerProductName, fakerProductDescription,
      fakerPrice, fakerAlphanumeric, fakerDepartment, fakerIntRange, fakerNat] at hit
    subst hit
    norm_num

/-- C10 witness: the defaults at the concrete fresh builder and generator
state 0. -/
theorem order_build_defaults_witness :
    ((OrderBuilder.new.build 0).1).status = "pending"
    ∧ ((OrderBuilder.new.build 0).1).paymentMethod = "Credit Card"
    ∧ ((OrderBuilder.new.build 0).1).billingAddress = none
    ∧ ((OrderBuilder.new.build 0).1).items = (defaultOrderItems 0).1 :=
  ⟨order_build_defaults.1 OrderBuilder.new 0 rfl,
   order_build_defaults.2.1 OrderBuilder.new 0 rfl,
   order_build_defaults.2.2.1 OrderBuilder.new 0 rfl,
   order_build_defaults.2.2.2.1 OrderBuilder.new 0 rfl⟩
